import Mathlib

/-!
Shallow embedding of `station_mapper.py` (nyctviz, version 3.2).

The module defines a single class `StationMapper` whose constructor loads
borough polygons, GTFS-style feed tables (shapes, trips, routes, stops,
stop_times) and whose `draw` method assembles a scene of station discs.

Modelling conventions:
  * feed identifiers are Lean `String`s, except shape identifiers which are
    modelled as `List Char` so that the Python `shape_id.split('.')[0]`
    operation can be reasoned about structurally;
  * numbers read from the CSV feeds are decimal literals, modelled as `ℚ`;
    caller-supplied marker areas are arbitrary Python floats, modelled as `ℝ`;
  * Python dicts are association lists looked up with `List.lookup`;
  * Python `True` / `False` sentinel arguments are a dedicated sum type;
  * fallible code (a Python `KeyError`) is modelled with `Option`.
-/

namespace StationMapper

/-- A Python value as stored in the label styling options dict. -/
inductive PyVal where
  | str : String → PyVal
  | num : ℚ → PyVal
  | dict : List (String × PyVal) → PyVal

/-- A Python argument that is either a collection (list or dict) or one of the
boolean sentinels `True` / `False`, as accepted by `draw` for `route_list`,
`location_list` and `location_labels`. -/
inductive PyArg (α : Type) where
  | coll : α → PyArg α
  | pyTrue : PyArg α
  | pyFalse : PyArg α

/-- Pandas `drop_duplicates` / first-occurrence deduplication. -/
def pyDedup {α : Type} [DecidableEq α] (l : List α) : List α :=
  l.foldl (fun acc x => if x ∈ acc then acc else acc ++ [x]) []

/-- One row of `shapes.csv`. -/
structure ShapeRow where
  shape_id : List Char
  shape_pt_sequence : ℕ
  shape_pt_lat : ℚ
  shape_pt_lon : ℚ
deriving DecidableEq

/-- One row of the prepared `corridors` table (columns kept at line 128 of the
source: shape data plus the derived `route_id` and `route_color`). -/
structure Corridor where
  shape_id : List Char
  shape_pt_sequence : ℕ
  shape_pt_lat : ℚ
  shape_pt_lon : ℚ
  route_id : List Char
  route_color : String
deriving DecidableEq

/-- Python `str.split(sep)` restricted to a single-character separator:
splits a character list at every occurrence of `sep`; the result is always
non-empty and the pieces do not contain `sep`. -/
def pySplit (sep : Char) : List Char → List (List Char)
  | [] => [[]]
  | c :: cs =>
    match pySplit sep cs with
    | [] => [[]]
    | w :: ws => if c = sep then [] :: w :: ws else (c :: w) :: ws

/-- The route id derived from a shape identifier,
`shape_id.split('.')[0]` at line 87 of the source. -/
def route_id_of (shape_id : List Char) : List Char :=
  (pySplit '.' shape_id).headD []

/-- The hard-coded route color table (lines 94-126 of the source). -/
def route_colors : List (List Char × String) :=
  [ ("1".toList, "#EE352E")
  , ("2".toList, "#EE352E")
  , ("3".toList, "#EE352E")
  , ("4".toList, "#00933C")
  , ("5".toList, "#00933C")
  , ("5X".toList, "#00933C")
  , ("6".toList, "#00933C")
  , ("6X".toList, "#00A65C")
  , ("7".toList, "#B933AD")
  , ("7X".toList, "#B933AD")
  , ("A".toList, "#2850AD")
  , ("C".toList, "#2850AD")
  , ("E".toList, "#2850AD")
  , ("B".toList, "#FF6319")
  , ("D".toList, "#FF6319")
  , ("F".toList, "#FF6319")
  , ("M".toList, "#FF6319")
  , ("V".toList, "#FF6319")
  , ("G".toList, "#6CBE45")
  , ("J".toList, "#996633")
  , ("Z".toList, "#996633")
  , ("L".toList, "#A7A9AC")
  , ("N".toList, "#FCCC0A")
  , ("Q".toList, "#FCCC0A")
  , ("R".toList, "#FCCC0A")
  , ("W".toList, "#FCCC0A")
  , ("GS".toList, "#6D6E71")
  , ("FS".toList, "#6D6E71")
  , ("H".toList, "#6D6E71")
  , ("S".toList, "#6D6E71")
  , ("SI".toList, "#0F2B51") ]

/-- The corridor built from one shape row once its color lookup succeeded. -/
def mkCorridor (s : ShapeRow) (color : String) : Corridor :=
  { shape_id := s.shape_id
  , shape_pt_sequence := s.shape_pt_sequence
  , shape_pt_lat := s.shape_pt_lat
  , shape_pt_lon := s.shape_pt_lon
  , route_id := route_id_of s.shape_id
  , route_color := color }

/-- The per-row color assignment of line 127: the list comprehension
`[route_colors[route_id] for route_id in corridors..]` evaluates the lookup
for every row and raises `KeyError` (here `none`) on the first missing key.
The left merge with `routes` (line 88) is omitted because the column
selection at line 128 drops every column it contributed. -/
def corridor_rows : List ShapeRow → Option (List Corridor)
  | [] => some []
  | s :: rest =>
    match route_colors.lookup (route_id_of s.shape_id), corridor_rows rest with
    | some c, some cs => some (mkCorridor s c :: cs)
    | _, _ => none

/-- The prepared `corridors` table (lines 86-128): derive a route id per shape
row, look its color up in the fixed table, then `drop_duplicates`. -/
def load_corridors (shapes : List ShapeRow) : Option (List Corridor) :=
  (corridor_rows shapes).map pyDedup

/-- One row of `stops.csv` (the columns the source uses). -/
structure StopRow where
  stop_id : String
  stop_name : String
  stop_lat : ℚ
  stop_lon : ℚ
  location_type : ℕ
  parent_station : String
deriving DecidableEq

/-- One row of the loaded `locations` table: a parent station together with
the set of route ids serving it (the set is modelled as a deduplicated list). -/
structure Location where
  location_id : String
  location_name : String
  location_lat : ℚ
  location_lon : ℚ
  route_ids : List String
deriving DecidableEq

/-- Pandas `groupby(key).agg(set)` on a list of (key, value) pairs: one row
per distinct key, carrying the deduplicated values for that key. -/
def groupby_sets (pairs : List (String × String)) : List (String × List String) :=
  (pyDedup (pairs.map (·.1))).map fun k =>
    (k, pyDedup ((pairs.filter (fun p => p.1 == k)).map (·.2)))

/-- The `stop_routes` pipeline (lines 134-138): deduplicate (trip, stop)
pairs, inner-merge with `trips` to get (stop, route), inner-merge with
`stops` to get (parent_station, route), deduplicate, then group by location
id aggregating route ids into a set. `stop_times` rows are (trip_id, stop_id)
pairs, `trips` rows are (trip_id, route_id) pairs. -/
def stop_routes (stop_times : List (String × String)) (trips : List (String × String))
    (stops : List StopRow) : List (String × List String) :=
  let sr := pyDedup stop_times
  let sr := pyDedup (sr.flatMap fun ts =>
    (trips.filter (fun t => t.1 == ts.1)).map fun t => (ts.2, t.2))
  let sr := pyDedup (sr.flatMap fun p =>
    (stops.filter (fun st => st.stop_id == p.1)).map fun st => (st.parent_station, p.2))
  groupby_sets sr

/-- The loaded `locations` table (lines 131-140): keep parent stops
(`location_type == 1`), then inner-merge the aggregated route sets onto them
by location id; a parent station with no `stop_routes` row is dropped. -/
def load_locations (stops : List StopRow) (stop_times : List (String × String))
    (trips : List (String × String)) : List Location :=
  let sr := stop_routes stop_times trips stops
  (stops.filter (fun s => s.location_type == 1)).flatMap fun s =>
    (sr.filter (fun p => p.1 == s.stop_id)).map fun p =>
      { location_id := s.stop_id
      , location_name := s.stop_name
      , location_lat := s.stop_lat
      , location_lon := s.stop_lon
      , route_ids := p.2 }

/-- The helper `is_empty` defined inside `draw` (lines 181-186): `len(x)==0`
when `x` supports `len`, and `False` for the sentinels `True` / `False`
(whose `len` raises, caught by the bare `except`). -/
def PyArg.is_empty {α : Type} (isEmptyColl : α → Bool) : PyArg α → Bool
  | .coll xs => isEmptyColl xs
  | .pyTrue => false
  | .pyFalse => false

/-- Pandas `Series.unique`: distinct values in order of first appearance. -/
def pyUnique {α : Type} [DecidableEq α] (l : List α) : List α := pyDedup l

/-- Resolution of the `route_list` argument (lines 194-199): empty or absent
behaves like `True` (all route ids of the corridors table); `False` yields
the empty selection; an explicit non-empty list is kept. -/
def resolve_route_list (corridors : List Corridor) : PyArg (List (List Char)) → List (List Char)
  | .coll xs => if xs.isEmpty then pyUnique (corridors.map (·.route_id)) else xs
  | .pyTrue => pyUnique (corridors.map (·.route_id))
  | .pyFalse => []

/-- Resolution of the `location_list` argument (lines 202-207). -/
def resolve_location_list (locations : List Location) : PyArg (List String) → List String
  | .coll xs => if xs.isEmpty then pyUnique (locations.map (·.location_id)) else xs
  | .pyTrue => pyUnique (locations.map (·.location_id))
  | .pyFalse => []

/-- Resolution of the `location_labels` argument (lines 210-218): when empty
or absent, the code labels no location if `sizes` is empty, and otherwise
builds the dict `{location_id: location_id}` over every loaded location;
`False` yields no labels, `True` labels every location. -/
def resolve_location_labels (locations : List Location) (sizes : List (String × ℝ)) :
    PyArg (List (String × String)) → List (String × String)
  | .coll d =>
    if d.isEmpty then
      if sizes.isEmpty then []
      else locations.map fun l => (l.location_id, l.location_id)
    else d
  | .pyFalse => []
  | .pyTrue => locations.map fun l => (l.location_id, l.location_id)

/-- Resolution of the `sizes` argument (lines 221-222): an empty dict is
replaced by `{location_id: 1}` over every loaded location (equal-sized dots). -/
def resolve_sizes (locations : List Location) (sizes : List (String × ℝ)) :
    List (String × ℝ) :=
  if sizes.isEmpty then locations.map (fun l => (l.location_id, 1)) else sizes

/-- Resolution of the `colors` argument (lines 225-226). -/
def resolve_colors (colors : List (String × String)) : List (String × String) :=
  if colors.isEmpty then [] else colors

/-- One assembled drawable station row (lines 238-246). -/
structure Row where
  location_id : String
  lon : ℚ
  lat : ℚ
  area : ℝ
  radius : ℝ
  color : String
  label : String

/-- The row built for one loaded location (lines 230-246): area from the
(resolved) sizes dict with fallback `0`, radius `sqrt(area/pi)`, color from
the (resolved) colors dict with fallback `"gray"`, label equal to the
location's name exactly when its id is a key of the resolved labels dict. -/
noncomputable def build_row (sizes : List (String × ℝ)) (colors : List (String × String))
    (location_labels : List (String × String)) (l : Location) : Row :=
  let area := match sizes.lookup l.location_id with
    | some a => a
    | none => 0
  { location_id := l.location_id
  , lon := l.location_lon
  , lat := l.location_lat
  , area := area
  , radius := Real.sqrt (area / Real.pi)
  , color := match colors.lookup l.location_id with
      | some c => c
      | none => "gray"
  , label := if (location_labels.lookup l.location_id).isSome then l.location_name else "" }

/-- The assembled data table (lines 229-256): one row per loaded location,
sorted by descending radius (`sort_values(['radius'], ascending=False)`). -/
noncomputable def build_data (locations : List Location) (sizes : List (String × ℝ))
    (colors : List (String × String)) (location_labels : List (String × String)) :
    List Row :=
  (locations.map (build_row sizes colors location_labels)).mergeSort
    (fun a b => decide (b.radius ≤ a.radius))

/-- The default label styling options (lines 310-318), in insertion order. -/
def default_location_label_options : List (String × PyVal) :=
  [ ("ha", .str "left")
  , ("va", .str "center")
  , ("color", .str "black")
  , ("fontsize", .num 8)
  , ("alpha", .num 1)
  , ("zorder", .num 4)
  , ("bbox", .dict [("facecolor", .str "white"), ("alpha", .num (1/2))]) ]

/-- The in-place defaulting loop of lines 319-321: every default key the
caller did not set is inserted (appended) into the caller's options dict. -/
def fill_label_options (options : List (String × PyVal)) : List (String × PyVal) :=
  default_location_label_options.foldl
    (fun acc kv => if (acc.lookup kv.1).isSome then acc else acc ++ [kv]) options

/-- Horizontal label offset (lines 336-342): reads `options['ha']`; an
unexpected value leaves the Python variable unbound, modelled as `none`. -/
def label_h_offset (options : List (String × PyVal)) (radius padding : ℝ) : Option ℝ :=
  match options.lookup "ha" with
  | some (.str "center") => some 0
  | some (.str "left") => some (radius + padding)
  | some (.str "right") => some (-(radius + padding))
  | _ => none

/-- Vertical label offset (lines 343-349): reads `options['va']`. -/
def label_v_offset (options : List (String × PyVal)) (radius padding : ℝ) : Option ℝ :=
  match options.lookup "va" with
  | some (.str "center") => some 0
  | some (.str "bottom") => some (radius + padding)
  | some (.str "top") => some (-(radius + padding))
  | _ => none

/-- The fixed label padding (line 331), before unit scaling. -/
def padding : ℝ := 1.5

/-- The unit scaling used when the coordinate transformation is enabled
(line 34). -/
def unit_scaling_transformed : ℝ := 500

/-- Python `math.radians`. -/
noncomputable def radians (degrees : ℝ) : ℝ := degrees * Real.pi / 180

/-- Rotation of a single point about `origin` by the angle `θ`, the matrix
multiply of lines 398-403 written pointwise. -/
noncomputable def rotate_point (θ : ℝ) (origin p : ℝ × ℝ) : ℝ × ℝ :=
  ( Real.cos θ * (p.1 - origin.1) - Real.sin θ * (p.2 - origin.2) + origin.1
  , Real.sin θ * (p.1 - origin.1) + Real.cos θ * (p.2 - origin.2) + origin.2 )

/-- The method `_map_rotate` (lines 380-408): rotate every point about
`origin` using the rotation matrix for `theta = -radians(degrees)`. -/
noncomputable def map_rotate (points : List (ℝ × ℝ)) (degrees : ℝ) (origin : ℝ × ℝ) :
    List (ℝ × ℝ) :=
  points.map (rotate_point (-(radians degrees)) origin)

/-- The method `_map_reproject` (lines 365-378): the external geodesy
transform is a black box applied pointwise, injected here as `proj`. -/
def map_reproject (proj : ℝ × ℝ → ℝ × ℝ) (points : List (ℝ × ℝ)) : List (ℝ × ℝ) :=
  points.map proj

/-- The constructor default `self._rotate_degrees` (line 27). -/
def rotate_degrees : ℝ := -29

/-- The constructor default `self._rotate_origin` (line 28), a geographic
(lon, lat) pair in degrees. -/
noncomputable def rotate_origin : ℝ × ℝ := (-73.9758, 40.7675)

/-- The method `_map_transform` (lines 410-417): reproject first, then
rotate by the fixed angle about the stored origin. The origin handed to the
rotation is `self._rotate_origin` itself, used as stored. -/
noncomputable def map_transform (proj : ℝ × ℝ → ℝ × ℝ) (points : List (ℝ × ℝ)) :
    List (ℝ × ℝ) :=
  map_rotate (map_reproject proj points) rotate_degrees rotate_origin

/-- The combined transform as the specification words it: identical to
`map_transform` except that the rotation origin is itself first passed
through the reprojection step. Stated only for comparison with the code. -/
noncomputable def map_transform_claimed (proj : ℝ × ℝ → ℝ × ℝ) (points : List (ℝ × ℝ)) :
    List (ℝ × ℝ) :=
  map_rotate (map_reproject proj points) rotate_degrees (proj rotate_origin)

/-- The cached state a `StationMapper` instance stores at construction
(lines 26-58 and 142-145): configuration, extents, borough polygons and the
prepared corridor and location tables. -/
structure Mapper where
  transform : Bool
  unit_scaling : ℝ
  xmin : ℝ
  xmax : ℝ
  ymin : ℝ
  ymax : ℝ
  xmin_zoom : ℝ
  xmax_zoom : ℝ
  ymin_zoom : ℝ
  ymax_zoom : ℝ
  boroughs : List (String × List (List (ℚ × ℚ)))
  corridors : List Corridor
  locations : List Location

/-- The caller-facing arguments of one `draw` invocation (line 149). -/
structure DrawRequest where
  sizes : List (String × ℝ)
  colors : List (String × String)
  route_list : PyArg (List (List Char))
  location_list : PyArg (List String)
  location_labels : PyArg (List (String × String))
  location_label_options : List (String × PyVal)
  zoom : Bool

/-- The per-call scene `draw` computes before painting: the assembled data
table, the resolved route and location selections, the filled label options
and the chosen view extent. -/
structure Scene where
  data : List Row
  route_list : List (List Char)
  location_list : List String
  label_options : List (String × PyVal)
  extent : ℝ × ℝ × ℝ × ℝ

/-- The scene assembly performed by `draw` (lines 188-321): resolve the
selectors against the cached tables (the label default inspects the
caller's `sizes` before `sizes` itself is defaulted), build and sort the
data table, fill the label options, pick the extent. -/
noncomputable def draw_scene (m : Mapper) (req : DrawRequest) : Scene :=
  let route_list := resolve_route_list m.corridors req.route_list
  let location_list := resolve_location_list m.locations req.location_list
  let location_labels := resolve_location_labels m.locations req.sizes req.location_labels
  let sizes := resolve_sizes m.locations req.sizes
  let colors := resolve_colors req.colors
  { data := build_data m.locations sizes colors location_labels
  , route_list := route_list
  , location_list := location_list
  , label_options := fill_label_options req.location_label_options
  , extent :=
      if req.zoom then (m.xmin_zoom, m.xmax_zoom, m.ymin_zoom, m.ymax_zoom)
      else (m.xmin, m.xmax, m.ymin, m.ymax) }

/-- The method `draw` with its effect on the instance made explicit: the
body reads `self._boroughs`, `self._corridors`, `self._locations` and the
extent fields and assigns to none of them, so the state handed back is the
state received. -/
noncomputable def draw (m : Mapper) (req : DrawRequest) : Mapper × Scene :=
  (m, draw_scene m req)

/-- The state of the module-level default object for the
`location_label_options=dict()` parameter (line 149): in Python the default
dict is created once at function-definition time and shared by every call
that omits the argument. -/
structure PyDefaults where
  location_label_options : List (String × PyVal)

/-- The default object as created at function-definition time: empty. -/
def init_defaults : PyDefaults := { location_label_options := [] }

/-- One `draw` call observed through its label-options behaviour: a caller
passing a dict gets that dict filled in place (lines 319-321); a caller
omitting the argument has the loop run on the shared default object, whose
mutated state persists for later calls. -/
def draw_call (env : PyDefaults) (caller : Option (List (String × PyVal))) :
    PyDefaults × List (String × PyVal) :=
  match caller with
  | some options => (env, fill_label_options options)
  | none =>
    let filled := fill_label_options env.location_label_options
    ({ location_label_options := filled }, filled)

/-! ### Concrete fixtures used to evaluate the definitions -/

/-- A single loaded parent station. -/
def loc₀ : Location :=
  { location_id := "S1", location_name := "City Hall"
  , location_lat := 40, location_lon := -74, route_ids := ["R1"] }

/-- A mapper holding the transformed-coordinate configuration of the
constructor (lines 32-44) and one loaded location. -/
noncomputable def mapper₀ : Mapper :=
  { transform := true, unit_scaling := 500
  , xmin := 724150, xmax := 854800, ymin := 539550, ymax := 743450
  , xmin_zoom := 746000, xmax_zoom := 854000, ymin_zoom := 600000, ymax_zoom := 741000
  , boroughs := [], corridors := [], locations := [loc₀] }

/-- A draw request leaving every argument at its default. -/
noncomputable def request₀ : DrawRequest :=
  { sizes := [], colors := [], route_list := .coll [], location_list := .coll []
  , location_labels := .coll [], location_label_options := [], zoom := false }

/-- A draw request whose size map is non-empty but mentions no loaded
location. -/
noncomputable def request₁ : DrawRequest :=
  { sizes := [("OTHER", 2)], colors := [], route_list := .coll []
  , location_list := .coll [], location_labels := .coll []
  , location_label_options := [], zoom := false }

/-- A draw request assigning area pi to the loaded location. -/
noncomputable def request₂ : DrawRequest :=
  { sizes := [("S1", Real.pi)], colors := [], route_list := .coll []
  , location_list := .coll [], location_labels := .coll []
  , location_label_options := [], zoom := false }

/-- The row `draw` builds for `loc₀` under `request₁`. -/
noncomputable def row₁ : Row :=
  build_row [("OTHER", 2)] [] [("S1", "S1")] loc₀

/-- The row `draw` builds for `loc₀` under `request₂`. -/
noncomputable def row₂ : Row :=
  build_row [("S1", Real.pi)] [] [("S1", "S1")] loc₀

/-! ### Helper lemmas -/

theorem build_row_location_id (s : List (String × ℝ)) (c : List (String × String))
    (lab : List (String × String)) (l : Location) :
    (build_row s c lab l).location_id = l.location_id := rfl

theorem build_row_area (s : List (String × ℝ)) (c : List (String × String))
    (lab : List (String × String)) (l : Location) :
    (build_row s c lab l).area =
      match s.lookup l.location_id with
      | some a => a
      | none => 0 := rfl

theorem build_row_radius (s : List (String × ℝ)) (c : List (String × String))
    (lab : List (String × String)) (l : Location) :
    (build_row s c lab l).radius = Real.sqrt ((build_row s c lab l).area / Real.pi) := rfl

theorem build_row_color (s : List (String × ℝ)) (c : List (String × String))
    (lab : List (String × String)) (l : Location) :
    (build_row s c lab l).color =
      match c.lookup l.location_id with
      | some col => col
      | none => "gray" := rfl

theorem lookup_map_one (ls : List Location) (k : String)
    (h : ∃ l ∈ ls, l.location_id = k) :
    (ls.map fun l => (l.location_id, (1 : ℝ))).lookup k = some 1 := by
  induction ls with
  | nil => simp at h
  | cons l0 ls ih =>
    simp only [List.map_cons, List.lookup_cons]
    cases hbeq : (k == l0.location_id) with
    | true => rfl
    | false =>
      simp only [cond_false]
      obtain ⟨l, hmem, hid⟩ := h
      rcases List.mem_cons.mp hmem with rfl | hmem
      · rw [hid] at hbeq
        simp at hbeq
      · exact ih ⟨l, hmem, hid⟩

theorem mem_foldl_dedup {α : Type} [DecidableEq α] (l acc : List α) (a : α) :
    a ∈ l.foldl (fun acc x => if x ∈ acc then acc else acc ++ [x]) acc ↔
      a ∈ acc ∨ a ∈ l := by
  induction l generalizing acc with
  | nil => simp
  | cons x xs ih =>
    simp only [List.foldl_cons, List.mem_cons]
    rw [ih]
    by_cases hx : x ∈ acc
    · simp only [if_pos hx]
      constructor
      · tauto
      · rintro (h | rfl | h)
        · exact Or.inl h
        · exact Or.inl hx
        · exact Or.inr h
    · simp only [if_neg hx]
      rw [List.mem_append, List.mem_singleton]
      tauto

theorem mem_pyDedup {α : Type} [DecidableEq α] {l : List α} {a : α} :
    a ∈ pyDedup l ↔ a ∈ l := by
  simpa [pyDedup] using mem_foldl_dedup l [] a

theorem pySplit_ne_nil (sep : Char) (l : List Char) : pySplit sep l ≠ [] := by
  cases l with
  | nil => simp [pySplit]
  | cons c cs =>
    unfold pySplit
    cases pySplit sep cs with
    | nil => simp
    | cons w ws =>
      by_cases h : c = sep <;> simp [h]

theorem pySplit_headD (sep : Char) (l : List Char) :
    (pySplit sep l).headD [] = l.takeWhile (· != sep) := by
  induction l with
  | nil => simp [pySplit]
  | cons c cs ih =>
    unfold pySplit
    cases h : pySplit sep cs with
    | nil => exact absurd h (pySplit_ne_nil sep cs)
    | cons w ws =>
      rw [h] at ih
      by_cases hc : c = sep
      · subst hc
        simp [List.takeWhile_cons]
      · simp only [if_neg hc, List.takeWhile_cons]
        simp only [List.headD_cons] at ih ⊢
        simp [bne_iff_ne, hc, ih]

theorem corridor_rows_eq_none (shapes : List ShapeRow) :
    corridor_rows shapes = none ↔
      ∃ r ∈ shapes, route_colors.lookup (route_id_of r.shape_id) = none := by
  induction shapes with
  | nil => simp [corridor_rows]
  | cons s rest ih =>
    unfold corridor_rows
    cases hl : route_colors.lookup (route_id_of s.shape_id) with
    | none =>
      exact iff_of_true rfl ⟨s, by simp, hl⟩
    | some c =>
      cases hr : corridor_rows rest with
      | none =>
        refine iff_of_true rfl ?_
        obtain ⟨r, hmem, hnone⟩ := ih.mp hr
        exact ⟨r, by simp [hmem], hnone⟩
      | some cs =>
        refine iff_of_false (by simp) ?_
        rintro ⟨r, hmem, hnone⟩
        rcases List.mem_cons.mp hmem with rfl | hmem
        · exact Option.noConfusion (hl.symm.trans hnone)
        · exact absurd (ih.mpr ⟨r, hmem, hnone⟩) (by simp [hr])

theorem lookup_foldl_insert_of_some (L : List (String × PyVal)) (acc : List (String × PyVal))
    (k : String) (v : PyVal) (h : acc.lookup k = some v) :
    (L.foldl (fun acc kv => if (acc.lookup kv.1).isSome then acc else acc ++ [kv]) acc).lookup k
      = some v := by
  induction L generalizing acc with
  | nil => exact h
  | cons kv L ih =>
    simp only [List.foldl_cons]
    apply ih
    by_cases hk : (acc.lookup kv.1).isSome = true
    · simpa [hk] using h
    · simp only [if_neg hk]
      rw [List.lookup_append, h]
      rfl

theorem lookup_foldl_insert_of_none (L : List (String × PyVal)) (acc : List (String × PyVal))
    (k : String) (v : PyVal) (hacc : acc.lookup k = none) (hL : L.lookup k = some v) :
    (L.foldl (fun acc kv => if (acc.lookup kv.1).isSome then acc else acc ++ [kv]) acc).lookup k
      = some v := by
  induction L generalizing acc with
  | nil => simp at hL
  | cons kv L ih =>
    obtain ⟨k', v'⟩ := kv
    simp only [List.foldl_cons]
    rw [List.lookup_cons] at hL
    cases hkk : (k == k') with
    | true =>
      have hkeq : k = k' := by simpa using hkk
      rw [hkk] at hL
      simp only [cond_true] at hL
      subst hkeq
      have hnot : ¬ (acc.lookup k).isSome = true := by simp [hacc]
      simp only [if_neg hnot]
      apply lookup_foldl_insert_of_some
      rw [List.lookup_append, hacc]
      simpa using hL
    | false =>
      rw [hkk] at hL
      simp only [cond_false] at hL
      by_cases hk' : (acc.lookup k').isSome = true
      · simp only [if_pos hk']
        exact ih acc hacc hL
      · simp only [if_neg hk']
        apply ih
        · rw [List.lookup_append, hacc]
          simp [List.lookup_cons, hkk]
        · exact hL

theorem foldl_insert_id (L : List (String × PyVal)) (acc : List (String × PyVal))
    (h : ∀ kv ∈ L, (acc.lookup kv.1).isSome = true) :
    L.foldl (fun acc kv => if (acc.lookup kv.1).isSome then acc else acc ++ [kv]) acc = acc := by
  induction L with
  | nil => rfl
  | cons kv L ih =>
    simp only [List.foldl_cons, if_pos (h kv (List.mem_cons_self kv L))]
    exact ih fun kv' h' => h kv' (List.mem_cons_of_mem kv h')

theorem lookup_default_options_of_mem (kv : String × PyVal)
    (hkv : kv ∈ default_location_label_options) :
    default_location_label_options.lookup kv.1 = some kv.2 := by
  simp only [default_location_label_options, List.mem_cons, List.not_mem_nil, or_false] at hkv
  rcases hkv with rfl | rfl | rfl | rfl | rfl | rfl | rfl <;> rfl

theorem fill_label_options_idem (options : List (String × PyVal)) :
    fill_label_options (fill_label_options options) = fill_label_options options := by
  apply foldl_insert_id
  intro kv hkv
  cases h : options.lookup kv.1 with
  | some v =>
    rw [show fill_label_options options =
        default_location_label_options.foldl
          (fun acc kv => if (acc.lookup kv.1).isSome then acc else acc ++ [kv]) options from rfl,
      lookup_foldl_insert_of_some _ _ _ _ h]
    rfl
  | none =>
    rw [show fill_label_options options =
        default_location_label_options.foldl
          (fun acc kv => if (acc.lookup kv.1).isSome then acc else acc ++ [kv]) options from rfl,
      lookup_foldl_insert_of_none _ _ _ _ h (lookup_default_options_of_mem kv hkv)]
    rfl

/-! ### Claim theorems -/

/-- C6 (confirmed): during loading, each route shape's route id is the part
of its shape identifier before the first '.' separator, and preparing the
corridors table fails with a key-lookup error (modelled as `none`, no
fallback color) exactly when some shape row's derived route id is absent
from the fixed color table. -/
theorem route_id_split_and_missing_color_fails :
    (∀ shape_id : List Char, route_id_of shape_id = shape_id.takeWhile (· != '.')) ∧
    (∀ shapes : List ShapeRow,
      load_corridors shapes = none ↔
        ∃ r ∈ shapes, route_colors.lookup (route_id_of r.shape_id) = none) := by
  constructor
  · intro s
    exact pySplit_headD '.' s
  · intro shapes
    rw [load_corridors, Option.map_eq_none']
    exact corridor_rows_eq_none shapes

/-- C7 (confirmed): a parent station with no qualifying stop-time row — no
stop-time record whose trip joins to `trips` and whose sub-stop joins to a
stop row with that parent — is dropped from the loaded locations, because
the final join of the aggregated route sets onto the locations table is an
inner join. -/
theorem location_without_stop_times_dropped :
    ∀ (stops : List StopRow) (stop_times trips : List (String × String)) (lid : String),
      (¬ ∃ ts ∈ stop_times, ∃ tr ∈ trips, tr.1 = ts.1 ∧
          ∃ st ∈ stops, st.stop_id = ts.2 ∧ st.parent_station = lid) →
      ∀ l ∈ load_locations stops stop_times trips, l.location_id ≠ lid := by
  intro stops stop_times trips lid hno l hl hid
  apply hno
  simp only [load_locations, List.mem_flatMap, List.mem_filter, List.mem_map] at hl
  obtain ⟨s, ⟨hs, hstype⟩, p, ⟨hp, hps⟩, hrec⟩ := hl
  have hsid : s.stop_id = lid := by
    rw [← hid, ← hrec]
  have hp1 : p.1 = lid := by
    have : p.1 = s.stop_id := by simpa using hps
    rw [this, hsid]
  simp only [stop_routes, groupby_sets, List.mem_map] at hp
  obtain ⟨k, hk, hpk⟩ := hp
  have hk1 : k = lid := by rw [← hp1, ← hpk]
  subst hk1
  rw [mem_pyDedup, List.mem_map] at hk
  obtain ⟨pair, hpair, hpair1⟩ := hk
  rw [mem_pyDedup, List.mem_flatMap] at hpair
  obtain ⟨q, hq, hpair2⟩ := hpair
  rw [List.mem_map] at hpair2
  obtain ⟨st, hst, hstpair⟩ := hpair2
  rw [List.mem_filter] at hst
  obtain ⟨hstmem, hstid⟩ := hst
  rw [mem_pyDedup, List.mem_flatMap] at hq
  obtain ⟨ts, hts, hq2⟩ := hq
  rw [List.mem_map] at hq2
  obtain ⟨tr, htr, htrq⟩ := hq2
  rw [List.mem_filter] at htr
  obtain ⟨htrmem, htrid⟩ := htr
  rw [mem_pyDedup] at hts
  refine ⟨ts, hts, tr, htrmem, by simpa using htrid, st, hstmem, ?_, ?_⟩
  · have h1 : st.stop_id = q.1 := by simpa using hstid
    have h2 : q.1 = ts.2 := by rw [← htrq]
    rw [h1, h2]
  · have : st.parent_station = pair.1 := by rw [← hstpair]
    rw [this, hpair1]

/-- C8 (confirmed): `draw` leaves the mapper's cached loaded state (borough
polygons, corridor table, location table, configuration) unchanged; the
scene is a pure function of that state and the request, so calls may be
repeated in any order with the same results over the same state. -/
theorem draw_preserves_cached_state :
    ∀ (m : Mapper) (req : DrawRequest),
      (draw m req).1 = m ∧
      (draw m req).2 = draw_scene m req ∧
      ∀ req2 : DrawRequest, draw ((draw m req).1) req2 = draw m req2 :=
  fun _ _ => ⟨rfl, rfl, fun _ => rfl⟩

/-- C9 (confirmed): the label offset from the circle center is
`radius + padding` with its sign determined solely by the anchor mode:
horizontal left gives `+(r+p)`, right gives `-(r+p)`, center gives `0`;
vertical bottom gives `+(r+p)`, top gives `-(r+p)`, center gives `0`; and
for `0 ≤ r` and positive padding (as in the code, where the scaled padding
is `1.5 * 500`) the three offsets on each axis are pairwise distinct. -/
theorem label_offset_anchor_signs :
    (∀ r p : ℝ,
      label_h_offset [("ha", PyVal.str "left")] r p = some (r + p) ∧
      label_h_offset [("ha", PyVal.str "right")] r p = some (-(r + p)) ∧
      label_h_offset [("ha", PyVal.str "center")] r p = some 0 ∧
      label_v_offset [("va", PyVal.str "bottom")] r p = some (r + p) ∧
      label_v_offset [("va", PyVal.str "top")] r p = some (-(r + p)) ∧
      label_v_offset [("va", PyVal.str "center")] r p = some 0) ∧
    (∀ r p : ℝ, 0 ≤ r → 0 < p →
      (r + p ≠ 0 ∧ -(r + p) ≠ 0 ∧ r + p ≠ -(r + p))) ∧
    0 < padding * unit_scaling_transformed := by
  refine ⟨fun r p => ⟨rfl, rfl, rfl, rfl, rfl, rfl⟩, fun r p hr hp => ?_,
    by norm_num [padding, unit_scaling_transformed]⟩
  have h1 : 0 < r + p := by linarith
  refine ⟨ne_of_gt h1, ?_, ?_⟩
  · intro h
    rw [neg_eq_zero] at h
    exact ne_of_gt h1 h
  · intro h
    linarith

/-- Witness for C9: the label offset facts applied at radius `0` and the
code's scaled padding `1.5 * 500`. -/
theorem label_offset_anchor_signs_witness :
    label_h_offset [("ha", PyVal.str "left")] 0 (padding * unit_scaling_transformed)
        = some (0 + padding * unit_scaling_transformed) ∧
    (0 : ℝ) + padding * unit_scaling_transformed ≠ 0 :=
  ⟨(label_offset_anchor_signs.1 0 (padding * unit_scaling_transformed)).1,
   (label_offset_anchor_signs.2.1 0 (padding * unit_scaling_transformed) le_rfl
      label_offset_anchor_signs.2.2).1⟩

/-- C10 (confirmed): `draw` mutates the caller-supplied
`location_label_options` dict in place, inserting every default styling key
the caller did not set while preserving the keys the caller did set; a call
omitting the parameter runs the same loop on the shared mutable default
object, whose filled state persists, so a second omitted call finds every
default already present and changes nothing. -/
theorem label_options_filled_in_place_and_persist :
    (∀ (options : List (String × PyVal)) (k : String) (v : PyVal),
        options.lookup k = none → default_location_label_options.lookup k = some v →
        (fill_label_options options).lookup k = some v) ∧
    (∀ (options : List (String × PyVal)) (k : String) (v : PyVal),
        options.lookup k = some v → (fill_label_options options).lookup k = some v) ∧
    (∀ env : PyDefaults, (draw_call env none).1.location_label_options =
        fill_label_options env.location_label_options) ∧
    (∀ env : PyDefaults, draw_call ((draw_call env none).1) none =
        ((draw_call env none).1, (draw_call env none).2)) := by
  refine ⟨?_, ?_, fun _ => rfl, ?_⟩
  · intro options k v h1 h2
    exact lookup_foldl_insert_of_none _ _ _ _ h1 h2
  · intro options k v h
    exact lookup_foldl_insert_of_some _ _ _ _ h
  · intro env
    simp only [draw_call]
    rw [fill_label_options_idem]

/-- Witness for C10: the defaulting facts applied to the empty caller dict
and to a caller dict that already sets the `ha` key. -/
theorem label_options_filled_witness :
    (fill_label_options []).lookup "ha" = some (PyVal.str "left") ∧
    (fill_label_options [("ha", PyVal.str "right")]).lookup "ha"
        = some (PyVal.str "right") :=
  ⟨label_options_filled_in_place_and_persist.1 [] "ha" (PyVal.str "left") rfl rfl,
   label_options_filled_in_place_and_persist.2.1 [("ha", PyVal.str "right")] "ha"
     (PyVal.str "right") rfl⟩

/-- Witness for C7: a parent station `"P1"` (location_type 1) with no
stop-time rows at all is absent from the loaded locations. -/
theorem location_without_stop_times_dropped_witness :
    "P1" ∉ (load_locations
      [ { stop_id := "101", stop_name := "Sub", stop_lat := 0, stop_lon := 0
        , location_type := 0, parent_station := "P1" }
      , { stop_id := "P1", stop_name := "Parent", stop_lat := 0, stop_lon := 0
        , location_type := 1, parent_station := "" } ] [] []).map Location.location_id := by
  intro hmem
  obtain ⟨l, hl, hid⟩ := List.mem_map.mp hmem
  exact location_without_stop_times_dropped _ [] [] "P1" (by simp) l hl hid

/-- C5 (confirmed): the assembled row sequence of every draw call is
non-increasing in radius (largest discs first); ties break arbitrarily. -/
theorem draw_data_sorted_by_descending_radius :
    ∀ (m : Mapper) (req : DrawRequest),
      ((draw m req).2.data).Pairwise (fun a b => b.radius ≤ a.radius) := by
  intro m req
  show ((m.locations.map (build_row (resolve_sizes m.locations req.sizes)
      (resolve_colors req.colors)
      (resolve_location_labels m.locations req.sizes req.location_labels))).mergeSort
      (fun a b => decide (b.radius ≤ a.radius))).Pairwise
      (fun a b => b.radius ≤ a.radius)
  refine List.Pairwise.imp (fun h => of_decide_eq_true h) ?_
  exact List.sorted_mergeSort
    (fun a b c h1 h2 => by
      simp only [decide_eq_true_eq] at h1 h2 ⊢
      exact le_trans h2 h1)
    (fun a b => by
      simp only [Bool.or_eq_true, decide_eq_true_eq]
      exact le_total _ _)
    _

/-- C4 (confirmed): every assembled row's radius equals `sqrt(area/pi)`; in
particular area 0 gives radius exactly 0 and area pi gives radius exactly 1. -/
theorem row_radius_law :
    ∀ (m : Mapper) (req : DrawRequest), ∀ row ∈ (draw m req).2.data,
      row.radius = Real.sqrt (row.area / Real.pi) ∧
      (row.area = 0 → row.radius = 0) ∧
      (row.area = Real.pi → row.radius = 1) := by
  intro m req row hrow
  have hmem : row ∈ m.locations.map (build_row (resolve_sizes m.locations req.sizes)
      (resolve_colors req.colors)
      (resolve_location_labels m.locations req.sizes req.location_labels)) := by
    have hms : row ∈ (m.locations.map (build_row (resolve_sizes m.locations req.sizes)
        (resolve_colors req.colors)
        (resolve_location_labels m.locations req.sizes req.location_labels))).mergeSort
        (fun a b => decide (b.radius ≤ a.radius)) := hrow
    rwa [List.mem_mergeSort] at hms
  obtain ⟨l, hl, rfl⟩ := List.mem_map.mp hmem
  refine ⟨build_row_radius _ _ _ _, fun h => ?_, fun h => ?_⟩
  · rw [build_row_radius, h]
    simp
  · rw [build_row_radius, h, div_self Real.pi_ne_zero, Real.sqrt_one]

/-- Witness for C4: under `request₂` (area pi for `"S1"`) the assembled row
has radius `sqrt(area/pi) = 1`. -/
theorem row_radius_law_witness :
    row₂ ∈ (draw mapper₀ request₂).2.data ∧
    row₂.radius = Real.sqrt (row₂.area / Real.pi) ∧ row₂.radius = 1 := by
  have hmem : row₂ ∈ (draw mapper₀ request₂).2.data := by
    simp [draw, draw_scene, build_data, mapper₀, request₂, resolve_sizes, resolve_colors,
      resolve_location_labels, row₂, loc₀]
  have h := row_radius_law mapper₀ request₂ row₂ hmem
  exact ⟨hmem, h.1, h.2.2 rfl⟩

/-- Counterexample for C3: under the all-defaults request the caller's size
map is entirely empty, `"S1"` has no size entry, and yet the assembled row
has area 1, not 0. -/
theorem empty_size_map_gives_area_one :
    request₀.sizes.lookup "S1" = none ∧
    ((draw mapper₀ request₀).2.data).map Row.area = [1] ∧
    (1 : ℝ) ≠ 0 := by
  refine ⟨rfl, ?_, one_ne_zero⟩
  simp [draw, draw_scene, build_data, mapper₀, request₀, resolve_sizes, resolve_colors,
    resolve_location_labels, build_row, loc₀]

/-- C3 (corrected): when the caller's size map is non-empty, a location id
absent from it gets area 0; when the caller's size map is entirely empty,
every location instead gets area 1 (equal-sized dots); a location id absent
from the caller's color map gets color "gray" in every case, including when
the color map is entirely empty. -/
theorem size_color_fallback :
    ∀ (m : Mapper) (req : DrawRequest), ∀ row ∈ (draw m req).2.data,
      (req.sizes ≠ [] → req.sizes.lookup row.location_id = none → row.area = 0) ∧
      (req.sizes = [] → (∃ l ∈ m.locations, l.location_id = row.location_id) → row.area = 1) ∧
      (req.colors.lookup row.location_id = none → row.color = "gray") := by
  intro m req row hrow
  have hmem : row ∈ m.locations.map (build_row (resolve_sizes m.locations req.sizes)
      (resolve_colors req.colors)
      (resolve_location_labels m.locations req.sizes req.location_labels)) := by
    have hms : row ∈ (m.locations.map (build_row (resolve_sizes m.locations req.sizes)
        (resolve_colors req.colors)
        (resolve_location_labels m.locations req.sizes req.location_labels))).mergeSort
        (fun a b => decide (b.radius ≤ a.radius)) := hrow
    rwa [List.mem_mergeSort] at hms
  obtain ⟨l, hl, rfl⟩ := List.mem_map.mp hmem
  refine ⟨fun hne hlook => ?_, fun hemp hex => ?_, fun hlook => ?_⟩
  · have hres : resolve_sizes m.locations req.sizes = req.sizes := by
      rw [resolve_sizes, if_neg (by simpa [List.isEmpty_iff] using hne)]
    rw [build_row_location_id] at hlook
    rw [build_row_area, hres, hlook]
  · have hres : resolve_sizes m.locations req.sizes =
        m.locations.map fun l => (l.location_id, (1 : ℝ)) := by
      rw [resolve_sizes, if_pos (by simp [hemp])]
    rw [build_row_location_id] at hex
    rw [build_row_area, hres, lookup_map_one m.locations l.location_id hex]
  · rw [build_row_location_id] at hlook
    rw [build_row_color]
    rw [resolve_colors]
    by_cases hc : req.colors.isEmpty = true
    · simp [hc]
    · simp only [if_neg hc]
      rw [hlook]

/-- Witness for C3: under `request₁` (a non-empty size map not mentioning
`"S1"`) the assembled row for `"S1"` has area 0 and color "gray". -/
theorem size_color_fallback_witness :
    row₁ ∈ (draw mapper₀ request₁).2.data ∧ row₁.area = 0 ∧ row₁.color = "gray" := by
  have hmem : row₁ ∈ (draw mapper₀ request₁).2.data := by
    simp [draw, draw_scene, build_data, mapper₀, request₁, resolve_sizes, resolve_colors,
      resolve_location_labels, row₁, loc₀]
  have h := size_color_fallback mapper₀ request₁ row₁ hmem
  exact ⟨hmem, h.1 (by simp [request₁]) rfl, h.2.2 rfl⟩

/-- C2 (code_bug): evaluated at the failing input — two loaded locations,
a size entry for only the first, empty label selector — the resolved label
dict contains both location ids even though the second has no size entry,
contradicting the code's own comment (line 209) and the spec. -/
theorem empty_label_selector_labels_all_locations :
    resolve_location_labels
      [ { location_id := "L1", location_name := "Alpha", location_lat := 0
        , location_lon := 0, route_ids := [] }
      , { location_id := "L2", location_name := "Beta", location_lat := 0
        , location_lon := 0, route_ids := [] } ]
      [("L1", (1 : ℝ))] (PyArg.coll [])
      = [("L1", "L1"), ("L2", "L2")] ∧
    (List.lookup "L2" [("L1", (1 : ℝ))]) = none :=
  ⟨rfl, rfl⟩

/-- C1 (corrected): the combined transform first reprojects every input
point and then rotates it by the fixed angle, using the standard rotation
matrix with theta = -radians(degrees), about the stored origin coordinates
used as-is (the original geographic origin, not its reprojection). -/
theorem map_transform_reproject_then_rotate :
    ∀ (proj : ℝ × ℝ → ℝ × ℝ) (points : List (ℝ × ℝ)),
      map_transform proj points =
        points.map fun p => rotate_point (-(radians rotate_degrees)) rotate_origin (proj p) := by
  intro proj points
  rw [map_transform, map_rotate, map_reproject, List.map_map]
  rfl

/-- Counterexample for C1: under the reprojection `p ↦ (p.1 + 1, p.2)` the
code's transform of the origin point differs from the variant that rotates
about the reprojected origin, so the rotation is not performed about the
reprojected origin. -/
theorem rotation_origin_not_reprojected :
    map_transform (fun p => (p.1 + 1, p.2)) [rotate_origin] ≠
      map_transform_claimed (fun p => (p.1 + 1, p.2)) [rotate_origin] := by
  intro h
  have hsin : 0 < Real.sin (-(radians rotate_degrees)) := by
    rw [radians, rotate_degrees]
    have h0 : -((-29 : ℝ) * Real.pi / 180) = 29 * Real.pi / 180 := by ring
    rw [h0]
    apply Real.sin_pos_of_pos_of_lt_pi
    · positivity
    · nlinarith [Real.pi_pos]
  simp only [map_transform, map_transform_claimed, map_rotate, map_reproject,
    List.map_cons, List.map_nil, rotate_point, List.cons.injEq, and_true,
    Prod.mk.injEq, rotate_origin] at h
  obtain ⟨-, h2⟩ := h
  nlinarith [h2, hsin]

end StationMapper
